import Mathlib

/-!
Shallow embedding of the Jessback backend (reservations, shipment slots
"créneaux", packages "colis").  Request bodies are modelled as records of
optional fields (presence of a JSON key), the relational store as lists of
rows, and each route handler as a pure function from the store and the
parsed request to the new store and an HTTP-like response.
-/

namespace Jessback

/-! ### JavaScript value helpers

An `Option` field models presence of a key in a JSON body.  JavaScript
truthiness of a missing field, of the empty string and of the number 0
is false. -/

/-- Truthiness of an optional string field. -/
def truthyS : Option String → Bool
  | some s => s ≠ ""
  | none   => false

/-- Truthiness of an optional integer field. -/
def truthyI : Option Int → Bool
  | some n => n ≠ 0
  | none   => false

/-- The expression `x || d` for an optional string field. -/
def jsOrS : Option String → String → String
  | some s, d => if s = "" then d else s
  | none,   d => d

/-- The expression `x || d` for an optional integer field. -/
def jsOrI : Option Int → Int → Int
  | some n, d => if n = 0 then d else n
  | none,   d => d

/-- The expression `x || d` for an optional boolean field. -/
def jsOrB : Option Bool → Bool → Bool
  | some b, d => if b then b else d
  | none,   d => d

/-- The comparison `x <= 0`, where a missing field compares false. -/
def jsLeZero : Option Int → Bool
  | some n => decide (n ≤ 0)
  | none   => false

/-- Case-insensitive substring test, modelling SQL ILIKE with wildcards
on both sides of the pattern. -/
def containsCI (hay pat : String) : Bool :=
  decide (2 ≤ ((hay.toLower).splitOn (pat.toLower)).length)

/-! ### Rows of the three tables -/

/-- A row of the reservations table. -/
structure Reservation where
  id : Nat
  destination : String
  nom : String
  prenom : String
  email : String
  telephone : String
  lieu_depart : String
  date_depart : String
  date_retour : Option String
  nombre_passagers : Int
  classe : String
  created_at : String
  deriving DecidableEq, Repr

/-- A row of the creneaux_expedition (shipment slot) table. -/
structure Creneau where
  id : Nat
  heure_depart : String
  lieu_depart : String
  destination : String
  capacite_max : Int
  frais_par_kg : Int
  poids_max_colis : Int
  type_transport : String
  date_expedition : String
  date_creation : String
  deriving DecidableEq, Repr

/-- A row of the colis (package) table.  Columns that a full update can
overwrite with NULL are optional. -/
structure Colis where
  id : Nat
  creneau_id : Option Nat
  numero_suivi : String
  nom_expediteur : String
  telephone_expediteur : String
  adresse_expediteur : String
  nom_destinataire : String
  telephone_destinataire : String
  adresse_destinataire : String
  type_colis : Option String
  poids : Int
  description : Option String
  valeur_declaree : Option Int
  assurance : Option Bool
  methode_paiement : Option String
  statut : String
  date_creation : String
  deriving DecidableEq, Repr

/-- The relational store shared by the three routers. -/
structure Store where
  reservations : List Reservation
  creneaux : List Creneau
  colis : List Colis
  deriving DecidableEq, Repr

/-- An HTTP-like response: success with a status and body, or an error
with a status and message. -/
inductive Resp (α : Type) where
  | ok  (status : Nat) (body : α)
  | err (status : Nat) (msg : String)
  deriving DecidableEq, Repr

/-- Whether a response is a success. -/
def Resp.isOk {α : Type} : Resp α → Bool
  | .ok _ _ => true
  | .err _ _ => false

/-! ### Pagination -/

/-- The pagination metadata object returned by every list endpoint. -/
structure Pagination where
  page : Int
  limit : Int
  total : Nat
  totalPages : Nat
  hasNext : Bool
  hasPrev : Bool
  deriving DecidableEq, Repr

/-- The effective page, Math.max(1, page). -/
def effPage (page : Int) : Int := max 1 page

/-- The effective limit, Math.min(100, Math.max(1, limit)). -/
def effLimit (limit : Int) : Int := min 100 (max 1 limit)

/-- Math.ceil(total / limit) for a positive integer limit. -/
def ceilPages (total : Nat) (limit : Nat) : Nat := (total + limit - 1) / limit

/-- The pagination object built by the list handlers from the requested
page and limit and the total row count. -/
def mkPagination (page limit : Int) (total : Nat) : Pagination :=
  let p := effPage page
  let l := effLimit limit
  let tp := ceilPages total l.toNat
  { page := p, limit := l, total := total, totalPages := tp,
    hasNext := decide (p < (tp : Int)), hasPrev := decide (1 < p) }

/-! ### Sorting (model of SQL ORDER BY) -/

/-- Insert an element into a list sorted by the boolean relation. -/
def insertSorted {α : Type} (le : α → α → Bool) (x : α) : List α → List α
  | [] => [x]
  | y :: ys => if le x y then x :: y :: ys else y :: insertSorted le x ys

/-- Insertion sort by a boolean relation. -/
def sortByLe {α : Type} (le : α → α → Bool) : List α → List α
  | [] => []
  | x :: xs => insertSorted le x (sortByLe le xs)

/-! ### Enum allow-lists -/

/-- Valid travel classes for reservations. -/
def validClasses : List String := ["Economique", "Affaires", "Premiere"]

/-- Valid package types. -/
def validPackageTypes : List String :=
  ["document", "vetements", "electronique", "nourriture", "autre"]

/-- Valid payment methods. -/
def validPaymentMethods : List String := ["especes", "carte", "virement", "mobile"]

/-- Valid package statuses. -/
def validStatus : List String := ["en_attente", "en_transit", "livre"]

/-- Valid transport types for slots. -/
def validTransportTypes : List String := ["standard", "express", "prioritaire"]

/-! ### Request bodies

Each payload record has one optional member per recognized body field;
`extraKeys` carries the names of unrecognized keys present in the body so
that the `Object.keys(updates).length` test can be modelled. -/

/-- A parsed request body for the colis router. -/
structure ColisPayload where
  creneau_id : Option Nat := none
  nom_expediteur : Option String := none
  telephone_expediteur : Option String := none
  adresse_expediteur : Option String := none
  nom_destinataire : Option String := none
  telephone_destinataire : Option String := none
  adresse_destinataire : Option String := none
  type_colis : Option String := none
  poids : Option Int := none
  description : Option String := none
  valeur_declaree : Option Int := none
  assurance : Option Bool := none
  methode_paiement : Option String := none
  statut : Option String := none
  extraKeys : List String := []
  deriving DecidableEq, Repr

/-- The recognized body keys present in a colis payload, in the order of
the allowedFields list of the patch handler. -/
def ColisPayload.presentFields (b : ColisPayload) : List String :=
  (if b.creneau_id.isSome then [("creneau_id" : String)] else []) ++
  (if b.nom_expediteur.isSome then [("nom_expediteur" : String)] else []) ++
  (if b.telephone_expediteur.isSome then [("telephone_expediteur" : String)] else []) ++
  (if b.adresse_expediteur.isSome then [("adresse_expediteur" : String)] else []) ++
  (if b.nom_destinataire.isSome then [("nom_destinataire" : String)] else []) ++
  (if b.telephone_destinataire.isSome then [("telephone_destinataire" : String)] else []) ++
  (if b.adresse_destinataire.isSome then [("adresse_destinataire" : String)] else []) ++
  (if b.type_colis.isSome then [("type_colis" : String)] else []) ++
  (if b.poids.isSome then [("poids" : String)] else []) ++
  (if b.description.isSome then [("description" : String)] else []) ++
  (if b.valeur_declaree.isSome then [("valeur_declaree" : String)] else []) ++
  (if b.assurance.isSome then [("assurance" : String)] else []) ++
  (if b.methode_paiement.isSome then [("methode_paiement" : String)] else []) ++
  (if b.statut.isSome then [("statut" : String)] else [])

/-- The required-field loop of the colis create and full-update handlers:
the first required field that is JavaScript-falsy, if any. -/
def colisRequiredMissing (b : ColisPayload) : Option String :=
  if !truthyS b.nom_expediteur then some ("nom_expediteur")
  else if !truthyS b.telephone_expediteur then some ("telephone_expediteur")
  else if !truthyS b.adresse_expediteur then some ("adresse_expediteur")
  else if !truthyS b.nom_destinataire then some ("nom_destinataire")
  else if !truthyS b.telephone_destinataire then some ("telephone_destinataire")
  else if !truthyS b.adresse_destinataire then some ("adresse_destinataire")
  else if !truthyI b.poids then some ("poids")
  else none

/-- The check `type_colis && !validPackageTypes.includes(type_colis)`. -/
def typeColisInvalid (b : ColisPayload) : Bool :=
  truthyS b.type_colis && !(validPackageTypes.contains (b.type_colis.getD ("")))

/-- The check `methode_paiement && !validPaymentMethods.includes(...)`. -/
def methodePaiementInvalid (b : ColisPayload) : Bool :=
  truthyS b.methode_paiement && !(validPaymentMethods.contains (b.methode_paiement.getD ("")))

/-- The check `statut && !validStatus.includes(statut)`. -/
def statutInvalid (b : ColisPayload) : Bool :=
  truthyS b.statut && !(validStatus.contains (b.statut.getD ("")))

/-- Number of colis rows whose creneau_id references the given slot id,
the COUNT(c.id) of the aggregate LEFT JOIN used by the slot queries. -/
def nbColisActuels (st : Store) (cid : Nat) : Nat :=
  (st.colis.filter (fun c => c.creneau_id == some cid)).length

/-- The id the store assigns to a newly inserted colis row. -/
def nextColisId (st : Store) : Nat :=
  st.colis.foldl (fun m c => max m c.id) 0 + 1

/-- The generated tracking code:
prefix COL, then Date.now(), then the random alphanumeric suffix. -/
def genNumeroSuivi (now : Nat) (rand : String) : String :=
  "COL" ++ toString now ++ rand

/-- The INSERT INTO colis statement with the defaults of the create
handler applied; `now` models Date.now(), `rand` the random suffix and
`createdAt` the store-side creation timestamp. -/
def insertColis (st : Store) (b : ColisPayload) (now : Nat) (rand : String)
    (createdAt : String) : Store × Resp Colis :=
  let row : Colis :=
    { id := nextColisId st
      creneau_id := b.creneau_id
      numero_suivi := genNumeroSuivi now rand
      nom_expediteur := b.nom_expediteur.getD ("")
      telephone_expediteur := b.telephone_expediteur.getD ("")
      adresse_expediteur := b.adresse_expediteur.getD ("")
      nom_destinataire := b.nom_destinataire.getD ("")
      telephone_destinataire := b.telephone_destinataire.getD ("")
      adresse_destinataire := b.adresse_destinataire.getD ("")
      type_colis := some (jsOrS b.type_colis ("document"))
      poids := b.poids.getD 0
      description := b.description
      valeur_declaree := some (jsOrI b.valeur_declaree 0)
      assurance := some (jsOrB b.assurance false)
      methode_paiement := some (jsOrS b.methode_paiement ("especes"))
      statut := "en_attente"
      date_creation := createdAt }
  ({ st with colis := st.colis ++ [row] }, .ok 201 row)

/-- POST /colis: validation, then the capacity check on the referenced
slot (skipped when the reference is absent or JavaScript-falsy), then the
insert. -/
def createColis (st : Store) (b : ColisPayload) (now : Nat) (rand : String)
    (createdAt : String) : Store × Resp Colis :=
  match colisRequiredMissing b with
  | some f => (st, .err 400 ("Champ obligatoire manquant: " ++ f))
  | none =>
    if typeColisInvalid b then (st, .err 400 "Type de colis invalide")
    else if methodePaiementInvalid b then (st, .err 400 "Méthode de paiement invalide")
    else if jsLeZero b.poids then (st, .err 400 "Le poids doit être supérieur à 0")
    else
      match b.creneau_id with
      | some cid =>
        if cid = 0 then insertColis st b now rand createdAt
        else
          match st.creneaux.find? (fun ce => ce.id == cid) with
          | none => (st, .err 400 "Créneau spécifié introuvable")
          | some ce =>
            if (nbColisActuels st cid : Int) ≥ ce.capacite_max then
              (st, .err 400 "Le créneau a atteint sa capacité maximale")
            else insertColis st b now rand createdAt
      | none => insertColis st b now rand createdAt

/-- The SET clause of the full-update statement on one colis row. -/
def applyColisPut (b : ColisPayload) (c : Colis) : Colis :=
  { c with
    creneau_id := b.creneau_id
    nom_expediteur := b.nom_expediteur.getD ("")
    telephone_expediteur := b.telephone_expediteur.getD ("")
    adresse_expediteur := b.adresse_expediteur.getD ("")
    nom_destinataire := b.nom_destinataire.getD ("")
    telephone_destinataire := b.telephone_destinataire.getD ("")
    adresse_destinataire := b.adresse_destinataire.getD ("")
    type_colis := b.type_colis
    poids := b.poids.getD 0
    description := b.description
    valeur_declaree := b.valeur_declaree
    assurance := b.assurance
    methode_paiement := b.methode_paiement
    statut := jsOrS b.statut ("en_attente") }

/-- PUT /colis/:id. -/
def putColis (st : Store) (id : Nat) (b : ColisPayload) : Store × Resp Colis :=
  match colisRequiredMissing b with
  | some f => (st, .err 400 ("Champ obligatoire manquant: " ++ f))
  | none =>
    if typeColisInvalid b then (st, .err 400 "Type de colis invalide")
    else if methodePaiementInvalid b then (st, .err 400 "Méthode de paiement invalide")
    else if jsLeZero b.poids then (st, .err 400 "Le poids doit être supérieur à 0")
    else if statutInvalid b then (st, .err 400 "Statut invalide")
    else
      match st.colis.find? (fun c => c.id == id) with
      | none => (st, .err 404 "Colis non trouvé")
      | some c0 =>
        ({ st with colis := st.colis.map (fun c => if c.id = id then applyColisPut b c else c) },
         .ok 200 (applyColisPut b c0))

/-- The dynamic SET clause of the partial-update statement on one colis
row: exactly the supplied recognized fields are overwritten. -/
def applyColisPatch (b : ColisPayload) (c : Colis) : Colis :=
  { c with
    creneau_id := (match b.creneau_id with | some v => some v | none => c.creneau_id)
    nom_expediteur := b.nom_expediteur.getD c.nom_expediteur
    telephone_expediteur := b.telephone_expediteur.getD c.telephone_expediteur
    adresse_expediteur := b.adresse_expediteur.getD c.adresse_expediteur
    nom_destinataire := b.nom_destinataire.getD c.nom_destinataire
    telephone_destinataire := b.telephone_destinataire.getD c.telephone_destinataire
    adresse_destinataire := b.adresse_destinataire.getD c.adresse_destinataire
    type_colis := (match b.type_colis with | some v => some v | none => c.type_colis)
    poids := b.poids.getD c.poids
    description := (match b.description with | some v => some v | none => c.description)
    valeur_declaree := (match b.valeur_declaree with | some v => some v | none => c.valeur_declaree)
    assurance := (match b.assurance with | some v => some v | none => c.assurance)
    methode_paiement := (match b.methode_paiement with | some v => some v | none => c.methode_paiement)
    statut := b.statut.getD c.statut }

/-- PATCH /colis/:id. -/
def patchColis (st : Store) (id : Nat) (b : ColisPayload) : Store × Resp Colis :=
  if b.presentFields.length + b.extraKeys.length = 0 then
    (st, .err 400 "Aucun champ à modifier")
  else if b.presentFields.length = 0 then
    (st, .err 400 "Aucun champ valide à modifier")
  else if typeColisInvalid b then (st, .err 400 "Type de colis invalide")
  else if methodePaiementInvalid b then (st, .err 400 "Méthode de paiement invalide")
  else if truthyI b.poids && jsLeZero b.poids then
    (st, .err 400 "Le poids doit être supérieur à 0")
  else if statutInvalid b then (st, .err 400 "Statut invalide")
  else
    match st.colis.find? (fun c => c.id == id) with
    | none => (st, .err 404 "Colis non trouvé")
    | some c0 =>
      ({ st with colis := st.colis.map (fun c => if c.id = id then applyColisPatch b c else c) },
       .ok 200 (applyColisPatch b c0))

/-! ### Colis list endpoint -/

/-- The search condition of the colis list endpoint. -/
def colisMatchesSearch (s : String) (c : Colis) : Bool :=
  containsCI c.nom_expediteur s || containsCI c.nom_destinataire s || containsCI c.numero_suivi s

/-- The WHERE clause of the colis list endpoint: the search condition
when the search parameter is truthy, and the status condition when the
status parameter is truthy and a member of the status enum (an invalid
status is silently ignored). -/
def colisFiltered (st : Store) (search statutq : Option String) : List Colis :=
  let afterSearch :=
    if truthyS search then st.colis.filter (colisMatchesSearch (search.getD (""))) else st.colis
  if truthyS statutq && validStatus.contains (statutq.getD ("")) then
    afterSearch.filter (fun c => c.statut == statutq.getD (""))
  else afterSearch

/-- The sort-column allow-list of the colis list endpoint. -/
def colisSortCols : List String :=
  ["id", "nom_expediteur", "nom_destinataire", "date_creation", "statut", "poids"]

/-- Ascending comparison of two colis rows on a sort column. -/
def colisLe (col : String) (a b : Colis) : Bool :=
  if col = "nom_expediteur" then (compare a.nom_expediteur b.nom_expediteur).isLE
  else if col = "nom_destinataire" then (compare a.nom_destinataire b.nom_destinataire).isLE
  else if col = "date_creation" then (compare a.date_creation b.date_creation).isLE
  else if col = "statut" then (compare a.statut b.statut).isLE
  else if col = "poids" then (compare a.poids b.poids).isLE
  else (compare a.id b.id).isLE

/-- A colis row enriched with its slot columns by the LEFT JOIN of the
colis read endpoints. -/
structure ColisView where
  colis : Colis
  lieu_depart : Option String
  destination : Option String
  heure_depart : Option String
  date_expedition : Option String
  deriving DecidableEq, Repr

/-- Enrich one colis row with the columns of its referenced slot. -/
def colisView (st : Store) (c : Colis) : ColisView :=
  match c.creneau_id.bind (fun cid => st.creneaux.find? (fun ce => ce.id == cid)) with
  | some ce =>
    ⟨c, some ce.lieu_depart, some ce.destination, some ce.heure_depart, some ce.date_expedition⟩
  | none => ⟨c, none, none, none, none⟩

/-- GET /colis: filter, sort, paginate, enrich. -/
def listColis (st : Store) (page limit : Int) (search statutq : Option String)
    (sortBy order : String) : Resp (List ColisView × Pagination) :=
  let p := effPage page
  let l := effLimit limit
  let off := ((p - 1) * l).toNat
  let col := if colisSortCols.contains sortBy then sortBy else "id"
  let asc := order.toUpper = "ASC"
  let base := colisFiltered st search statutq
  let views := base.map (colisView st)
  let sorted := sortByLe
    (fun a b => if asc then colisLe col a.colis b.colis else colisLe col b.colis a.colis) views
  .ok 200 ((sorted.drop off).take l.toNat, mkPagination page limit base.length)

/-! ### Creneaux handlers -/

/-- A slot row together with the two derived columns of the aggregate
LEFT JOIN: nombre_colis_actuels = COUNT(c.id) and
places_restantes = capacite_max - COUNT(c.id). -/
structure CreneauView where
  creneau : Creneau
  nombre_colis_actuels : Nat
  places_restantes : Int
  deriving DecidableEq, Repr

/-- The aggregate row the slot read endpoints build for one slot. -/
def creneauView (st : Store) (ce : Creneau) : CreneauView :=
  ⟨ce, nbColisActuels st ce.id, ce.capacite_max - (nbColisActuels st ce.id : Int)⟩

/-- The WHERE clause of the creneaux list endpoint. -/
def creneauxFiltered (st : Store) (search : Option String) : List Creneau :=
  if truthyS search then
    st.creneaux.filter
      (fun ce => containsCI ce.lieu_depart (search.getD ("")) ||
                 containsCI ce.destination (search.getD ("")))
  else st.creneaux

/-- The sort-column allow-list of the creneaux list endpoint. -/
def creneauxSortCols : List String :=
  ["id", "lieu_depart", "destination", "date_expedition", "heure_depart", "date_creation"]

/-- Ascending comparison of two slot rows on a sort column. -/
def creneauLe (col : String) (a b : Creneau) : Bool :=
  if col = "lieu_depart" then (compare a.lieu_depart b.lieu_depart).isLE
  else if col = "destination" then (compare a.destination b.destination).isLE
  else if col = "date_expedition" then (compare a.date_expedition b.date_expedition).isLE
  else if col = "heure_depart" then (compare a.heure_depart b.heure_depart).isLE
  else if col = "date_creation" then (compare a.date_creation b.date_creation).isLE
  else (compare a.id b.id).isLE

/-- GET /creneaux: the aggregate join result for the matching slots,
sorted and paginated. -/
def listCreneaux (st : Store) (page limit : Int) (search : Option String)
    (sortBy order : String) : Resp (List CreneauView × Pagination) :=
  let p := effPage page
  let l := effLimit limit
  let off := ((p - 1) * l).toNat
  let col := if creneauxSortCols.contains sortBy then sortBy else "id"
  let asc := order.toUpper = "ASC"
  let base := creneauxFiltered st search
  let views := base.map (creneauView st)
  let sorted := sortByLe
    (fun a b => if asc then creneauLe col a.creneau b.creneau
                else creneauLe col b.creneau a.creneau) views
  .ok 200 ((sorted.drop off).take l.toNat, mkPagination page limit base.length)

/-- GET /creneaux/:id. -/
def getCreneauById (st : Store) (id : Nat) : Resp CreneauView :=
  match st.creneaux.find? (fun ce => ce.id == id) with
  | none => .err 404 "Créneau non trouvé"
  | some ce => .ok 200 (creneauView st ce)

/-- DELETE /creneaux/:id: count the referencing packages first, reject
when any exist, otherwise delete and return the removed row. -/
def deleteCreneau (st : Store) (id : Nat) : Store × Resp (String × Creneau) :=
  if 0 < nbColisActuels st id then
    (st, .err 400 "Impossible de supprimer le créneau: des colis y sont associés")
  else
    match st.creneaux.find? (fun ce => ce.id == id) with
    | none => (st, .err 404 "Créneau non trouvé")
    | some ce =>
      ({ st with creneaux := st.creneaux.filter (fun x => !(x.id == id)) },
       .ok 200 ("Créneau supprimé", ce))

/-- A parsed request body for the creneaux router. -/
structure CreneauPayload where
  heure_depart : Option String := none
  lieu_depart : Option String := none
  destination : Option String := none
  capacite_max : Option Int := none
  frais_par_kg : Option Int := none
  poids_max_colis : Option Int := none
  type_transport : Option String := none
  date_expedition : Option String := none
  extraKeys : List String := []
  deriving DecidableEq, Repr

/-- The recognized body keys present in a creneau payload, in the order
of the allowedFields list of the patch handler. -/
def CreneauPayload.presentFields (b : CreneauPayload) : List String :=
  (if b.heure_depart.isSome then [("heure_depart" : String)] else []) ++
  (if b.lieu_depart.isSome then [("lieu_depart" : String)] else []) ++
  (if b.destination.isSome then [("destination" : String)] else []) ++
  (if b.capacite_max.isSome then [("capacite_max" : String)] else []) ++
  (if b.frais_par_kg.isSome then [("frais_par_kg" : String)] else []) ++
  (if b.poids_max_colis.isSome then [("poids_max_colis" : String)] else []) ++
  (if b.type_transport.isSome then [("type_transport" : String)] else []) ++
  (if b.date_expedition.isSome then [("date_expedition" : String)] else [])

/-- The check `type_transport && !validTransportTypes.includes(...)`. -/
def typeTransportInvalid (b : CreneauPayload) : Bool :=
  truthyS b.type_transport && !(validTransportTypes.contains (b.type_transport.getD ("")))

/-- The positivity check of the creneaux patch handler: each of the
three numeric fields is validated only when JavaScript-truthy. -/
def creneauPositivityFail (b : CreneauPayload) : Bool :=
  (truthyI b.capacite_max && jsLeZero b.capacite_max) ||
  (truthyI b.frais_par_kg && jsLeZero b.frais_par_kg) ||
  (truthyI b.poids_max_colis && jsLeZero b.poids_max_colis)

/-- The dynamic SET clause of the creneaux partial update. -/
def applyCreneauPatch (b : CreneauPayload) (ce : Creneau) : Creneau :=
  { ce with
    heure_depart := b.heure_depart.getD ce.heure_depart
    lieu_depart := b.lieu_depart.getD ce.lieu_depart
    destination := b.destination.getD ce.destination
    capacite_max := b.capacite_max.getD ce.capacite_max
    frais_par_kg := b.frais_par_kg.getD ce.frais_par_kg
    poids_max_colis := b.poids_max_colis.getD ce.poids_max_colis
    type_transport := b.type_transport.getD ce.type_transport
    date_expedition := b.date_expedition.getD ce.date_expedition }

/-- PATCH /creneaux/:id. -/
def patchCreneau (st : Store) (id : Nat) (b : CreneauPayload) : Store × Resp Creneau :=
  if b.presentFields.length + b.extraKeys.length = 0 then
    (st, .err 400 "Aucun champ à modifier")
  else if b.presentFields.length = 0 then
    (st, .err 400 "Aucun champ valide à modifier")
  else if typeTransportInvalid b then
    (st, .err 400 "Type de transport invalide. Doit être: standard, express ou prioritaire")
  else if creneauPositivityFail b then
    (st, .err 400 "La capacité, les frais et le poids maximum doivent être supérieurs à 0")
  else
    match st.creneaux.find? (fun ce => ce.id == id) with
    | none => (st, .err 404 "Créneau non trouvé")
    | some ce0 =>
      ({ st with
         creneaux := st.creneaux.map (fun ce => if ce.id = id then applyCreneauPatch b ce else ce) },
       .ok 200 (applyCreneauPatch b ce0))

/-! ### Reservations handlers -/

/-- A parsed request body for the reservations router. -/
structure ReservationPayload where
  destination : Option String := none
  nom : Option String := none
  prenom : Option String := none
  email : Option String := none
  telephone : Option String := none
  lieu_depart : Option String := none
  date_depart : Option String := none
  date_retour : Option String := none
  nombre_passagers : Option Int := none
  classe : Option String := none
  extraKeys : List String := []
  deriving DecidableEq, Repr

/-- The recognized body keys present in a reservation payload, in the
order of the allowedFields list of the patch handler. -/
def ReservationPayload.presentFields (b : ReservationPayload) : List String :=
  (if b.destination.isSome then [("destination" : String)] else []) ++
  (if b.nom.isSome then [("nom" : String)] else []) ++
  (if b.prenom.isSome then [("prenom" : String)] else []) ++
  (if b.email.isSome then [("email" : String)] else []) ++
  (if b.telephone.isSome then [("telephone" : String)] else []) ++
  (if b.lieu_depart.isSome then [("lieu_depart" : String)] else []) ++
  (if b.date_depart.isSome then [("date_depart" : String)] else []) ++
  (if b.date_retour.isSome then [("date_retour" : String)] else []) ++
  (if b.nombre_passagers.isSome then [("nombre_passagers" : String)] else []) ++
  (if b.classe.isSome then [("classe" : String)] else [])

/-- The check `classe && !validClasses.includes(classe)` of the
reservation patch handler. -/
def classeInvalidPatch (b : ReservationPayload) : Bool :=
  truthyS b.classe && !(validClasses.contains (b.classe.getD ("")))

/-- The dynamic SET clause of the reservation partial update. -/
def applyReservationPatch (b : ReservationPayload) (r : Reservation) : Reservation :=
  { r with
    destination := b.destination.getD r.destination
    nom := b.nom.getD r.nom
    prenom := b.prenom.getD r.prenom
    email := b.email.getD r.email
    telephone := b.telephone.getD r.telephone
    lieu_depart := b.lieu_depart.getD r.lieu_depart
    date_depart := b.date_depart.getD r.date_depart
    date_retour := (match b.date_retour with | some v => some v | none => r.date_retour)
    nombre_passagers := b.nombre_passagers.getD r.nombre_passagers
    classe := b.classe.getD r.classe }

/-- PATCH /reservations/:id. -/
def patchReservation (st : Store) (id : Nat) (b : ReservationPayload) :
    Store × Resp Reservation :=
  if b.presentFields.length + b.extraKeys.length = 0 then
    (st, .err 400 "Aucun champ à modifier")
  else if b.presentFields.length = 0 then
    (st, .err 400 "Aucun champ valide à modifier")
  else if classeInvalidPatch b then
    (st, .err 400 "Classe invalide. Doit être: Economique, Affaires ou Premiere")
  else if truthyI b.nombre_passagers && jsLeZero b.nombre_passagers then
    (st, .err 400 "Le nombre de passagers doit être supérieur à 0")
  else
    match st.reservations.find? (fun r => r.id == id) with
    | none => (st, .err 404 "Réservation non trouvée")
    | some r0 =>
      ({ st with
         reservations :=
           st.reservations.map (fun r => if r.id = id then applyReservationPatch b r else r) },
       .ok 200 (applyReservationPatch b r0))

/-- The search condition of the reservations list endpoint. -/
def resMatchesSearch (s : String) (r : Reservation) : Bool :=
  containsCI r.nom s || containsCI r.prenom s || containsCI r.email s ||
  containsCI r.destination s

/-- The WHERE clause of the reservations list endpoint. -/
def resFiltered (st : Store) (search : Option String) : List Reservation :=
  if truthyS search then st.reservations.filter (resMatchesSearch (search.getD ("")))
  else st.reservations

/-- The sort-column allow-list of the reservations list endpoint. -/
def resSortCols : List String :=
  ["id", "nom", "prenom", "email", "destination", "date_depart", "created_at"]

/-- Ascending comparison of two reservation rows on a sort column. -/
def resLe (col : String) (a b : Reservation) : Bool :=
  if col = "nom" then (compare a.nom b.nom).isLE
  else if col = "prenom" then (compare a.prenom b.prenom).isLE
  else if col = "email" then (compare a.email b.email).isLE
  else if col = "destination" then (compare a.destination b.destination).isLE
  else if col = "date_depart" then (compare a.date_depart b.date_depart).isLE
  else if col = "created_at" then (compare a.created_at b.created_at).isLE
  else (compare a.id b.id).isLE

/-- GET /reservations: filter, sort, paginate. -/
def listReservations (st : Store) (page limit : Int) (search : Option String)
    (sortBy order : String) : Resp (List Reservation × Pagination) :=
  let p := effPage page
  let l := effLimit limit
  let off := ((p - 1) * l).toNat
  let col := if resSortCols.contains sortBy then sortBy else "id"
  let asc := order.toUpper = "ASC"
  let base := resFiltered st search
  let sorted := sortByLe (fun a b => if asc then resLe col a b else resLe col b a) base
  .ok 200 ((sorted.drop off).take l.toNat, mkPagination page limit base.length)

/-- One entry of the ids array of the batch delete, abstracted by how
parseInt and the store-side integer cast treat it: intVal for an exact
integer (a number or a fully numeric string), nonIntNum n for a value
that parseInt only partially parses to n although the value itself is
not an integer, such as 12.5 or a string of digits followed by letters,
and nanVal for a value whose parseInt is NaN. -/
inductive IdEntry where
  | intVal (n : Int)
  | nonIntNum (n : Int)
  | nanVal
  deriving DecidableEq, Repr

/-- The result of parseInt on an entry, none when it is NaN. -/
def parseIntJs : IdEntry → Option Int
  | .intVal n => some n
  | .nonIntNum n => some n
  | .nanVal => none

/-- The store-side cast of one bound entry to an integer: an entry that
is not an exact integer fails the cast. -/
def sqlIntCast : IdEntry → Option Int
  | .intVal n => some n
  | .nonIntNum _ => none
  | .nanVal => none

/-- Casting every bound entry; none as soon as one cast fails, which
makes the whole DELETE statement error. -/
def castEntries : List IdEntry → Option (List Int)
  | [] => some []
  | e :: es =>
    match sqlIntCast e, castEntries es with
    | some n, some ns => some (n :: ns)
    | _, _ => none

/-- DELETE /reservations (batch): the filter keeps the original entries
whose parseInt is not NaN and binds them into the DELETE statement; if
any kept entry fails the integer cast, the statement errors, the
router-level error middleware answers 500 and no row is deleted. -/
def deleteManyReservations (st : Store) (ids : Option (List IdEntry)) :
    Store × Resp (String × List Reservation) :=
  match ids with
  | none => (st, .err 400 "Liste d\x27IDs requise")
  | some l =>
    if l.length = 0 then (st, .err 400 "Liste d\x27IDs requise")
    else
      let validIds := l.filter (fun e => (parseIntJs e).isSome)
      if validIds.length = 0 then (st, .err 400 "Aucun ID valide fourni")
      else
        match castEntries validIds with
        | none => (st, .err 500 "Erreur interne du serveur")
        | some ids2 =>
          let deleted := st.reservations.filter (fun r => ids2.contains (r.id : Int))
          ({ st with
             reservations := st.reservations.filter (fun r => !(ids2.contains (r.id : Int))) },
           .ok 200 (toString deleted.length ++ " réservation(s) supprimée(s)", deleted))

/-! ### Helper lemmas -/

/-- Membership in an insertion step. -/
theorem mem_insertSorted {α : Type} (le : α → α → Bool) (x a : α) (l : List α) :
    a ∈ insertSorted le x l ↔ a = x ∨ a ∈ l := by
  induction l with
  | nil => simp [insertSorted]
  | cons y ys ih =>
    simp only [insertSorted]
    split
    · simp [List.mem_cons]
    · simp only [List.mem_cons, ih]
      tauto

/-- Sorting permutes membership. -/
theorem mem_sortByLe {α : Type} (le : α → α → Bool) (a : α) (l : List α) :
    a ∈ sortByLe le l ↔ a ∈ l := by
  induction l with
  | nil => simp [sortByLe]
  | cons x xs ih => simp [sortByLe, mem_insertSorted, ih]

/-! ### Concrete sample data -/

/-- A sample slot with id 0 and maximum capacity 1. -/
def exCreneau0 : Creneau :=
  { id := 0, heure_depart := "08:00", lieu_depart := "Dakar", destination := "Paris",
    capacite_max := 1, frais_par_kg := 5, poids_max_colis := 30,
    type_transport := "standard", date_expedition := "2024-06-01",
    date_creation := "2024-05-01" }

/-- A sample slot with id 1 and maximum capacity 1. -/
def exCreneau1 : Creneau := { exCreneau0 with id := 1 }

/-- A sample package referencing slot 0. -/
def exColisRef0 : Colis :=
  { id := 1, creneau_id := some 0, numero_suivi := "COL1A",
    nom_expediteur := "Awa", telephone_expediteur := "770000000",
    adresse_expediteur := "Rue 1", nom_destinataire := "Ba",
    telephone_destinataire := "780000000", adresse_destinataire := "Rue 2",
    type_colis := some ("document"), poids := 2, description := none,
    valeur_declaree := some 0, assurance := some false,
    methode_paiement := some ("especes"), statut := "livre",
    date_creation := "2024-05-02" }

/-- A sample package referencing slot 1. -/
def exColisRef1 : Colis := { exColisRef0 with creneau_id := some 1 }

/-- A sample package referencing no slot. -/
def exColisFree : Colis := { exColisRef0 with creneau_id := none }

/-- A sample reservation. -/
def exResa : Reservation :=
  { id := 1, destination := "Paris", nom := "Ba", prenom := "Awa",
    email := "a@b.c", telephone := "770000000", lieu_depart := "Dakar",
    date_depart := "2024-06-01", date_retour := none, nombre_passagers := 2,
    classe := "Economique", created_at := "2024-05-01" }

/-- A valid package-creation body referencing slot 0. -/
def exBodyRef0 : ColisPayload :=
  { creneau_id := some 0, nom_expediteur := some ("Cheikh"),
    telephone_expediteur := some ("771111111"), adresse_expediteur := some ("Rue 3"),
    nom_destinataire := some ("Diop"), telephone_destinataire := some ("781111111"),
    adresse_destinataire := some ("Rue 4"), poids := some 3 }

/-- A valid package body referencing slot 1. -/
def exBodyRef1 : ColisPayload := { exBodyRef0 with creneau_id := some 1 }

/-- A valid package body with no slot reference. -/
def exBodyPlain : ColisPayload := { exBodyRef0 with creneau_id := none }

/-- Store with slot 0 at full capacity. -/
def exStoreSlot0Full : Store := ⟨[], [exCreneau0], [exColisRef0]⟩

/-- Store with slot 1 at full capacity. -/
def exStoreSlot1Full : Store := ⟨[], [exCreneau1], [exColisRef1]⟩

/-- Store with slot 1 and no packages. -/
def exStoreSlot1Empty : Store := ⟨[], [exCreneau1], []⟩

/-- Store with one unassigned package. -/
def exStoreColisOnly : Store := ⟨[], [], [exColisFree]⟩

/-- Store with one reservation. -/
def exStoreResa : Store := ⟨[exResa], [], []⟩

/-- The empty store. -/
def exStoreEmpty : Store := ⟨[], [], []⟩

/-! ### Claims -/

/-- C1, counterexample: the create request supplies the slot reference 0,
slot 0 exists and is at full capacity, yet the handler does not reject
the request and inserts a package row, because a slot reference of 0 is
JavaScript-falsy and the whole capacity block is skipped. -/
theorem c1_counterexample :
    exBodyRef0.creneau_id = some 0 ∧
    exStoreSlot0Full.creneaux.find? (fun ce => ce.id == 0) = some exCreneau0 ∧
    (nbColisActuels exStoreSlot0Full 0 : Int) ≥ exCreneau0.capacite_max ∧
    Resp.isOk (createColis exStoreSlot0Full exBodyRef0 1000 "AB12CD34E" "2024-05-03").2 = true ∧
    ((createColis exStoreSlot0Full exBodyRef0 1000 "AB12CD34E" "2024-05-03").1).colis.length =
      exStoreSlot0Full.colis.length + 1 := by
  decide

/-- C1 (amended): for every package-creation request that supplies a
nonzero slot reference and passes the field validations, the request is
rejected with a 400 error and no row inserted when the slot does not
exist, rejected with a 400 error and no row inserted when the slot's
current package count is at least its maximum capacity, and only when
the count is strictly below the capacity does the insert proceed. -/
theorem c1_create_capacity_check (st : Store) (b : ColisPayload) (now : Nat)
    (rand createdAt : String) (cid : Nat)
    (href : b.creneau_id = some cid) (hnz : cid ≠ 0)
    (hreq : colisRequiredMissing b = none)
    (htype : typeColisInvalid b = false)
    (hpay : methodePaiementInvalid b = false)
    (hpoids : jsLeZero b.poids = false) :
    (st.creneaux.find? (fun ce => ce.id == cid) = none →
      createColis st b now rand createdAt = (st, .err 400 "Créneau spécifié introuvable")) ∧
    (∀ ce, st.creneaux.find? (fun ce => ce.id == cid) = some ce →
      ((nbColisActuels st cid : Int) ≥ ce.capacite_max →
        createColis st b now rand createdAt =
          (st, .err 400 "Le créneau a atteint sa capacité maximale")) ∧
      ((nbColisActuels st cid : Int) < ce.capacite_max →
        ∃ row, createColis st b now rand createdAt =
          ({ st with colis := st.colis ++ [row] }, .ok 201 row))) := by
  constructor
  · intro hnone
    simp only [createColis, hreq, htype, hpay, hpoids, href, hnone, Bool.false_eq_true,
      if_false, if_neg hnz]
  · intro ce hce
    constructor
    · intro hge
      simp only [createColis, hreq, htype, hpay, hpoids, href, hce, Bool.false_eq_true,
        if_false, if_neg hnz]
      rw [if_pos hge]
    · intro hlt
      simp only [createColis, hreq, htype, hpay, hpoids, href, hce, Bool.false_eq_true,
        if_false, if_neg hnz]
      rw [if_neg (not_le.mpr hlt)]
      exact ⟨_, rfl⟩

/-- C1, witness: slot 1 exists and is at full capacity, and the create
request referencing it is rejected with the capacity error and the store
is unchanged. -/
theorem c1_witness :
    exBodyRef1.creneau_id = some 1 ∧
    (nbColisActuels exStoreSlot1Full 1 : Int) ≥ exCreneau1.capacite_max ∧
    createColis exStoreSlot1Full exBodyRef1 1000 "AB12CD34E" "2024-05-03" =
      (exStoreSlot1Full, .err 400 "Le créneau a atteint sa capacité maximale") := by
  refine ⟨by decide, by decide, ?_⟩
  exact ((c1_create_capacity_check exStoreSlot1Full exBodyRef1 1000 "AB12CD34E" "2024-05-03" 1
    (by decide) (by decide) (by decide) (by decide) (by decide) (by decide)).2
    exCreneau1 (by decide)).1 (by decide)

/-- C2: every aggregate slot row returned by get-by-id or contained in
a list response carries nombre_colis_actuels equal to the number of
package rows referencing the slot and places_restantes equal to the
maximum capacity minus that number, and a slot referenced by zero
packages still appears in the aggregate row set of the list endpoint,
with count 0 and remaining capacity equal to its maximum capacity. -/
theorem c2_remaining_capacity :
    (∀ (st : Store) (id : Nat) (v : CreneauView),
      getCreneauById st id = Resp.ok 200 v →
      v.nombre_colis_actuels =
        (st.colis.filter (fun c => c.creneau_id == some v.creneau.id)).length ∧
      v.places_restantes = v.creneau.capacite_max -
        ((st.colis.filter (fun c => c.creneau_id == some v.creneau.id)).length : Int)) ∧
    (∀ (st : Store) (page limit : Int) (search : Option String) (sortBy order : String)
      (data : List CreneauView) (pg : Pagination) (v : CreneauView),
      listCreneaux st page limit search sortBy order = Resp.ok 200 (data, pg) →
      v ∈ data →
      v.nombre_colis_actuels =
        (st.colis.filter (fun c => c.creneau_id == some v.creneau.id)).length ∧
      v.places_restantes = v.creneau.capacite_max -
        ((st.colis.filter (fun c => c.creneau_id == some v.creneau.id)).length : Int)) ∧
    (∀ (st : Store) (ce : Creneau), ce ∈ st.creneaux →
      (st.colis.filter (fun c => c.creneau_id == some ce.id)).length = 0 →
      creneauView st ce ∈ (creneauxFiltered st none).map (creneauView st) ∧
      (creneauView st ce).nombre_colis_actuels = 0 ∧
      (creneauView st ce).places_restantes = ce.capacite_max) := by
  refine ⟨?_, ?_, ?_⟩
  · intro st id v h
    unfold getCreneauById at h
    split at h
    · exact absurd h (by simp)
    · rw [Resp.ok.injEq] at h
      obtain ⟨-, h2⟩ := h
      subst h2
      exact ⟨rfl, rfl⟩
  · intro st page limit search sortBy order data pg v h hv
    simp only [listCreneaux, Resp.ok.injEq, Prod.mk.injEq] at h
    obtain ⟨-, hdata, -⟩ := h
    rw [← hdata] at hv
    have hv2 := List.take_subset _ _ hv
    have hv3 := List.drop_subset _ _ hv2
    rw [mem_sortByLe] at hv3
    obtain ⟨ce, -, hce⟩ := List.mem_map.mp hv3
    subst hce
    exact ⟨rfl, rfl⟩
  · intro st ce hmem hzero
    refine ⟨List.mem_map_of_mem _ hmem, ?_, ?_⟩
    · simpa [creneauView, nbColisActuels] using hzero
    · simp [creneauView, nbColisActuels, hzero]

/-- C2, witness: slot 1 has no referencing packages; get-by-id returns
it with count 0 and remaining capacity equal to its maximum capacity,
and it appears in the aggregate row set of the list endpoint. -/
theorem c2_witness :
    getCreneauById exStoreSlot1Empty 1 = Resp.ok 200 (creneauView exStoreSlot1Empty exCreneau1) ∧
    creneauView exStoreSlot1Empty exCreneau1 ∈
      (creneauxFiltered exStoreSlot1Empty none).map (creneauView exStoreSlot1Empty) ∧
    (creneauView exStoreSlot1Empty exCreneau1).nombre_colis_actuels = 0 ∧
    (creneauView exStoreSlot1Empty exCreneau1).places_restantes = exCreneau1.capacite_max := by
  have h := c2_remaining_capacity.2.2 exStoreSlot1Empty exCreneau1 (by decide) (by decide)
  exact ⟨by decide, h.1, h.2.1, h.2.2⟩

/-- C3: deleting a slot whose id is referenced by at least one package
is rejected with an error and leaves the whole store unchanged; when no
package references the slot, the slot row is removed and returned. -/
theorem c3_delete_conflict_guard (st : Store) (id : Nat) :
    (0 < (st.colis.filter (fun c => c.creneau_id == some id)).length →
      deleteCreneau st id =
        (st, Resp.err 400 "Impossible de supprimer le créneau: des colis y sont associés")) ∧
    ((st.colis.filter (fun c => c.creneau_id == some id)).length = 0 →
      ∀ ce, st.creneaux.find? (fun x => x.id == id) = some ce →
        deleteCreneau st id =
          ({ st with creneaux := st.creneaux.filter (fun x => !(x.id == id)) },
           Resp.ok 200 ("Créneau supprimé", ce))) := by
  constructor
  · intro h
    simp only [deleteCreneau, nbColisActuels]
    rw [if_pos h]
  · intro h ce hce
    simp only [deleteCreneau, nbColisActuels, h, hce]
    rw [if_neg (lt_irrefl 0)]

/-- C3, witness: slot 1 with one referencing package cannot be deleted
and the store is unchanged; slot 1 with no referencing package is
deleted and returned. -/
theorem c3_witness :
    0 < (exStoreSlot1Full.colis.filter (fun c => c.creneau_id == some 1)).length ∧
    deleteCreneau exStoreSlot1Full 1 =
      (exStoreSlot1Full,
       Resp.err 400 "Impossible de supprimer le créneau: des colis y sont associés") ∧
    deleteCreneau exStoreSlot1Empty 1 =
      ({ exStoreSlot1Empty with
         creneaux := exStoreSlot1Empty.creneaux.filter (fun x => !(x.id == 1)) },
       Resp.ok 200 ("Créneau supprimé", exCreneau1)) := by
  refine ⟨by decide, (c3_delete_conflict_guard exStoreSlot1Full 1).1 (by decide), ?_⟩
  exact (c3_delete_conflict_guard exStoreSlot1Empty 1).2 (by decide) exCreneau1 (by decide)

/-! ### Evaluation lemmas for the update handlers -/

/-- Evaluation of the colis full update when all validations pass and
the row exists. -/
theorem putColis_ok (st : Store) (id : Nat) (b : ColisPayload) (c0 : Colis)
    (hreq : colisRequiredMissing b = none)
    (htype : typeColisInvalid b = false)
    (hpay : methodePaiementInvalid b = false)
    (hpoids : jsLeZero b.poids = false)
    (hstat : statutInvalid b = false)
    (hc0 : st.colis.find? (fun c => c.id == id) = some c0) :
    putColis st id b =
      ({ st with colis := st.colis.map (fun c => if c.id = id then applyColisPut b c else c) },
       Resp.ok 200 (applyColisPut b c0)) := by
  simp only [putColis, hreq, htype, hpay, hpoids, hstat, Bool.false_eq_true, if_false, hc0]

/-- Evaluation of the colis partial update when all validations pass
and the row exists. -/
theorem patchColis_ok (st : Store) (id : Nat) (b : ColisPayload) (c0 : Colis)
    (h1 : b.presentFields.length + b.extraKeys.length ≠ 0)
    (h2 : b.presentFields.length ≠ 0)
    (htype : typeColisInvalid b = false)
    (hpay : methodePaiementInvalid b = false)
    (hpoids : (truthyI b.poids && jsLeZero b.poids) = false)
    (hstat : statutInvalid b = false)
    (hc0 : st.colis.find? (fun c => c.id == id) = some c0) :
    patchColis st id b =
      ({ st with colis := st.colis.map (fun c => if c.id = id then applyColisPatch b c else c) },
       Resp.ok 200 (applyColisPatch b c0)) := by
  simp only [patchColis, hc0]
  rw [if_neg h1, if_neg h2]
  simp only [htype, hpay, hpoids, hstat, Bool.false_eq_true, if_false]

/-- Evaluation of the creneau partial update when all validations pass
and the row exists. -/
theorem patchCreneau_ok (st : Store) (id : Nat) (b : CreneauPayload) (ce0 : Creneau)
    (h1 : b.presentFields.length + b.extraKeys.length ≠ 0)
    (h2 : b.presentFields.length ≠ 0)
    (htype : typeTransportInvalid b = false)
    (hpos : creneauPositivityFail b = false)
    (hce0 : st.creneaux.find? (fun ce => ce.id == id) = some ce0) :
    patchCreneau st id b =
      ({ st with
         creneaux := st.creneaux.map (fun ce => if ce.id = id then applyCreneauPatch b ce else ce) },
       Resp.ok 200 (applyCreneauPatch b ce0)) := by
  simp only [patchCreneau, hce0]
  rw [if_neg h1, if_neg h2]
  simp only [htype, hpos, Bool.false_eq_true, if_false]

/-- Evaluation of the reservation partial update when all validations
pass and the row exists. -/
theorem patchReservation_ok (st : Store) (id : Nat) (b : ReservationPayload) (r0 : Reservation)
    (h1 : b.presentFields.length + b.extraKeys.length ≠ 0)
    (h2 : b.presentFields.length ≠ 0)
    (hcl : classeInvalidPatch b = false)
    (hnp : (truthyI b.nombre_passagers && jsLeZero b.nombre_passagers) = false)
    (hr0 : st.reservations.find? (fun r => r.id == id) = some r0) :
    patchReservation st id b =
      ({ st with
         reservations :=
           st.reservations.map (fun r => if r.id = id then applyReservationPatch b r else r) },
       Resp.ok 200 (applyReservationPatch b r0)) := by
  simp only [patchReservation, hr0]
  rw [if_neg h1, if_neg h2]
  simp only [hcl, hnp, Bool.false_eq_true, if_false]

/-- C4: a full update and a partial update on an existing package id do
not check slot capacity: given the field validations pass, both succeed
even when they set the slot reference to a slot whose current package
count is at least its maximum capacity. -/
theorem c4_update_skips_capacity (st : Store) (id : Nat) (bput bpatch : ColisPayload)
    (s : Nat) (ce : Creneau) (c0 : Colis)
    (_hce : st.creneaux.find? (fun x => x.id == s) = some ce)
    (_hfull : (nbColisActuels st s : Int) ≥ ce.capacite_max)
    (hc0 : st.colis.find? (fun c => c.id == id) = some c0)
    (hput_ref : bput.creneau_id = some s)
    (hreq : colisRequiredMissing bput = none)
    (htype : typeColisInvalid bput = false)
    (hpay : methodePaiementInvalid bput = false)
    (hpoids : jsLeZero bput.poids = false)
    (hstat : statutInvalid bput = false)
    (hpatch_ref : bpatch.creneau_id = some s)
    (htype2 : typeColisInvalid bpatch = false)
    (hpay2 : methodePaiementInvalid bpatch = false)
    (hpoids2 : (truthyI bpatch.poids && jsLeZero bpatch.poids) = false)
    (hstat2 : statutInvalid bpatch = false) :
    (putColis st id bput).2 = Resp.ok 200 (applyColisPut bput c0) ∧
    (applyColisPut bput c0).creneau_id = some s ∧
    (patchColis st id bpatch).2 = Resp.ok 200 (applyColisPatch bpatch c0) ∧
    (applyColisPatch bpatch c0).creneau_id = some s := by
  have hlen : 0 < bpatch.presentFields.length := by
    simp [ColisPayload.presentFields, hpatch_ref]
  refine ⟨?_, ?_, ?_, ?_⟩
  · rw [putColis_ok st id bput c0 hreq htype hpay hpoids hstat hc0]
  · simp [applyColisPut, hput_ref]
  · rw [patchColis_ok st id bpatch c0 (by omega) (by omega) htype2 hpay2 hpoids2 hstat2 hc0]
  · simp [applyColisPatch, hpatch_ref]

/-- C4, witness: slot 1 is at full capacity, yet both the full update
and the partial update that point package 1 at slot 1 succeed. -/
theorem c4_witness :
    (nbColisActuels exStoreSlot1Full 1 : Int) ≥ exCreneau1.capacite_max ∧
    (putColis exStoreSlot1Full 1 exBodyRef1).2 =
      Resp.ok 200 (applyColisPut exBodyRef1 exColisRef1) ∧
    (patchColis exStoreSlot1Full 1 ({ creneau_id := some 1 } : ColisPayload)).2 =
      Resp.ok 200 (applyColisPatch ({ creneau_id := some 1 } : ColisPayload) exColisRef1) := by
  have h := c4_update_skips_capacity exStoreSlot1Full 1 exBodyRef1
    ({ creneau_id := some 1 } : ColisPayload) 1 exCreneau1 exColisRef1
    (by decide) (by decide) (by decide) (by decide) (by decide) (by decide) (by decide)
    (by decide) (by decide) (by decide) (by decide) (by decide) (by decide) (by decide)
  exact ⟨by decide, h.1, h.2.2.1⟩

/-- C5: the stored tracking code of every successfully created package
is the concatenation of the fixed prefix COL, the creation timestamp and
the random alphanumeric suffix, computed from those two inputs alone and
without consulting the store; and neither a full update nor a partial
update changes the tracking code of any stored row. -/
theorem c5_tracking_code :
    (∀ (st : Store) (b : ColisPayload) (now : Nat) (rand createdAt : String)
      (st2 : Store) (row : Colis),
      createColis st b now rand createdAt = (st2, Resp.ok 201 row) →
      row.numero_suivi = "COL" ++ toString now ++ rand) ∧
    (∀ (st : Store) (id : Nat) (b : ColisPayload),
      ((putColis st id b).1).colis.map (fun c => (c.id, c.numero_suivi)) =
        st.colis.map (fun c => (c.id, c.numero_suivi))) ∧
    (∀ (st : Store) (id : Nat) (b : ColisPayload),
      ((patchColis st id b).1).colis.map (fun c => (c.id, c.numero_suivi)) =
        st.colis.map (fun c => (c.id, c.numero_suivi))) := by
  refine ⟨?_, ?_, ?_⟩
  · intro st b now rand createdAt st2 row h
    simp only [createColis, insertColis] at h
    repeat' split at h
    all_goals
      first
      | (simp only [Prod.mk.injEq, Resp.ok.injEq] at h
         obtain ⟨-, -, hrow⟩ := h
         rw [← hrow]
         rfl)
      | simp at h
  · intro st id b
    simp only [putColis]
    repeat' split
    any_goals rfl
    all_goals
      simp only [List.map_map]
      congr 1
      funext c
      by_cases hc : c.id = id
      · simp [Function.comp, hc, applyColisPut]
      · simp [Function.comp, hc]
  · intro st id b
    simp only [patchColis]
    repeat' split
    any_goals rfl
    all_goals
      simp only [List.map_map]
      congr 1
      funext c
      by_cases hc : c.id = id
      · simp [Function.comp, hc, applyColisPatch]
      · simp [Function.comp, hc]

/-- The row inserted by the sample create request of the C5 witness. -/
def exCreatedRow : Colis :=
  { id := 1, creneau_id := none, numero_suivi := "COL5Z9X8Y7W6V",
    nom_expediteur := "Cheikh", telephone_expediteur := "771111111",
    adresse_expediteur := "Rue 3", nom_destinataire := "Diop",
    telephone_destinataire := "781111111", adresse_destinataire := "Rue 4",
    type_colis := some ("document"), poids := 3, description := none,
    valeur_declaree := some 0, assurance := some false,
    methode_paiement := some ("especes"), statut := "en_attente",
    date_creation := "2024-05-03" }

/-- C5, witness: a concrete create stores the code COL5Z9X8Y7W6V, which
is the prefix, the timestamp 5 and the suffix concatenated. -/
theorem c5_witness :
    createColis exStoreEmpty exBodyPlain 5 "Z9X8Y7W6V" "2024-05-03" =
      (({ exStoreEmpty with colis := [exCreatedRow] } : Store), Resp.ok 201 exCreatedRow) ∧
    exCreatedRow.numero_suivi = "COL" ++ toString 5 ++ "Z9X8Y7W6V" := by
  refine ⟨by decide, ?_⟩
  exact c5_tracking_code.1 exStoreEmpty exBodyPlain 5 "Z9X8Y7W6V" "2024-05-03"
    ({ exStoreEmpty with colis := [exCreatedRow] } : Store) exCreatedRow (by decide)

/-! ### Field-wise description of the partial updates -/

/-- Fields absent from a reservation partial-update body are unchanged
on the updated row. -/
def reservationPatchRespectsAbsent (b : ReservationPayload) (old new : Reservation) : Prop :=
  new.id = old.id ∧
  (b.destination = none → new.destination = old.destination) ∧
  (b.nom = none → new.nom = old.nom) ∧
  (b.prenom = none → new.prenom = old.prenom) ∧
  (b.email = none → new.email = old.email) ∧
  (b.telephone = none → new.telephone = old.telephone) ∧
  (b.lieu_depart = none → new.lieu_depart = old.lieu_depart) ∧
  (b.date_depart = none → new.date_depart = old.date_depart) ∧
  (b.date_retour = none → new.date_retour = old.date_retour) ∧
  (b.nombre_passagers = none → new.nombre_passagers = old.nombre_passagers) ∧
  (b.classe = none → new.classe = old.classe) ∧
  new.created_at = old.created_at

/-- Fields supplied in a reservation partial-update body are written to
the updated row. -/
def reservationPatchAppliesPresent (b : ReservationPayload) (new : Reservation) : Prop :=
  (∀ v, b.destination = some v → new.destination = v) ∧
  (∀ v, b.nom = some v → new.nom = v) ∧
  (∀ v, b.prenom = some v → new.prenom = v) ∧
  (∀ v, b.email = some v → new.email = v) ∧
  (∀ v, b.telephone = some v → new.telephone = v) ∧
  (∀ v, b.lieu_depart = some v → new.lieu_depart = v) ∧
  (∀ v, b.date_depart = some v → new.date_depart = v) ∧
  (∀ v, b.date_retour = some v → new.date_retour = some v) ∧
  (∀ v, b.nombre_passagers = some v → new.nombre_passagers = v) ∧
  (∀ v, b.classe = some v → new.classe = v)

/-- Fields absent from a colis partial-update body are unchanged on the
updated row. -/
def colisPatchRespectsAbsent (b : ColisPayload) (old new : Colis) : Prop :=
  new.id = old.id ∧
  new.numero_suivi = old.numero_suivi ∧
  (b.creneau_id = none → new.creneau_id = old.creneau_id) ∧
  (b.nom_expediteur = none → new.nom_expediteur = old.nom_expediteur) ∧
  (b.telephone_expediteur = none → new.telephone_expediteur = old.telephone_expediteur) ∧
  (b.adresse_expediteur = none → new.adresse_expediteur = old.adresse_expediteur) ∧
  (b.nom_destinataire = none → new.nom_destinataire = old.nom_destinataire) ∧
  (b.telephone_destinataire = none → new.telephone_destinataire = old.telephone_destinataire) ∧
  (b.adresse_destinataire = none → new.adresse_destinataire = old.adresse_destinataire) ∧
  (b.type_colis = none → new.type_colis = old.type_colis) ∧
  (b.poids = none → new.poids = old.poids) ∧
  (b.description = none → new.description = old.description) ∧
  (b.valeur_declaree = none → new.valeur_declaree = old.valeur_declaree) ∧
  (b.assurance = none → new.assurance = old.assurance) ∧
  (b.methode_paiement = none → new.methode_paiement = old.methode_paiement) ∧
  (b.statut = none → new.statut = old.statut) ∧
  new.date_creation = old.date_creation

/-- Fields supplied in a colis partial-update body are written to the
updated row. -/
def colisPatchAppliesPresent (b : ColisPayload) (new : Colis) : Prop :=
  (∀ v, b.creneau_id = some v → new.creneau_id = some v) ∧
  (∀ v, b.nom_expediteur = some v → new.nom_expediteur = v) ∧
  (∀ v, b.telephone_expediteur = some v → new.telephone_expediteur = v) ∧
  (∀ v, b.adresse_expediteur = some v → new.adresse_expediteur = v) ∧
  (∀ v, b.nom_destinataire = some v → new.nom_destinataire = v) ∧
  (∀ v, b.telephone_destinataire = some v → new.telephone_destinataire = v) ∧
  (∀ v, b.adresse_destinataire = some v → new.adresse_destinataire = v) ∧
  (∀ v, b.type_colis = some v → new.type_colis = some v) ∧
  (∀ v, b.poids = some v → new.poids = v) ∧
  (∀ v, b.description = some v → new.description = some v) ∧
  (∀ v, b.valeur_declaree = some v → new.valeur_declaree = some v) ∧
  (∀ v, b.assurance = some v → new.assurance = some v) ∧
  (∀ v, b.methode_paiement = some v → new.methode_paiement = some v) ∧
  (∀ v, b.statut = some v → new.statut = v)

/-- The reservation patch SET clause leaves absent fields unchanged. -/
theorem applyReservationPatch_respects (b : ReservationPayload) (r : Reservation) :
    reservationPatchRespectsAbsent b r (applyReservationPatch b r) := by
  refine ⟨rfl, ?_, ?_, ?_, ?_, ?_, ?_, ?_, ?_, ?_, ?_, rfl⟩ <;>
    (intro h; simp [applyReservationPatch, h])

/-- The reservation patch SET clause writes supplied fields. -/
theorem applyReservationPatch_applies (b : ReservationPayload) (r : Reservation) :
    reservationPatchAppliesPresent b (applyReservationPatch b r) := by
  refine ⟨?_, ?_, ?_, ?_, ?_, ?_, ?_, ?_, ?_, ?_⟩ <;>
    (intro v h; simp [applyReservationPatch, h])

/-- The colis patch SET clause leaves absent fields unchanged. -/
theorem applyColisPatch_respects (b : ColisPayload) (c : Colis) :
    colisPatchRespectsAbsent b c (applyColisPatch b c) := by
  refine ⟨rfl, rfl, ?_, ?_, ?_, ?_, ?_, ?_, ?_, ?_, ?_, ?_, ?_, ?_, ?_, ?_, rfl⟩ <;>
    (intro h; simp [applyColisPatch, h])

/-- The colis patch SET clause writes supplied fields. -/
theorem applyColisPatch_applies (b : ColisPayload) (c : Colis) :
    colisPatchAppliesPresent b (applyColisPatch b c) := by
  refine ⟨?_, ?_, ?_, ?_, ?_, ?_, ?_, ?_, ?_, ?_, ?_, ?_, ?_, ?_⟩ <;>
    (intro v h; simp [applyColisPatch, h])

/-- C6: a partial update whose body is empty, or contains only
unrecognized keys, is rejected with a 400 error and the store is
unchanged; and every successful partial update writes exactly the
supplied recognized fields of the first matching row and leaves the
absent fields unchanged, for the reservation and the colis routers. -/
theorem c6_patch_field_filtering :
    (∀ (st : Store) (id : Nat) (b : ReservationPayload),
      (b.presentFields.length + b.extraKeys.length = 0 →
        patchReservation st id b = (st, Resp.err 400 "Aucun champ à modifier")) ∧
      (b.presentFields = [] → b.extraKeys ≠ [] →
        patchReservation st id b = (st, Resp.err 400 "Aucun champ valide à modifier")) ∧
      (∀ (st2 : Store) (r0 rnew : Reservation),
        st.reservations.find? (fun r => r.id == id) = some r0 →
        patchReservation st id b = (st2, Resp.ok 200 rnew) →
        rnew = applyReservationPatch b r0 ∧
        reservationPatchRespectsAbsent b r0 rnew ∧
        reservationPatchAppliesPresent b rnew ∧
        st2.reservations =
          st.reservations.map (fun r => if r.id = id then applyReservationPatch b r else r) ∧
        st2.creneaux = st.creneaux ∧ st2.colis = st.colis)) ∧
    (∀ (st : Store) (id : Nat) (b : ColisPayload),
      (b.presentFields.length + b.extraKeys.length = 0 →
        patchColis st id b = (st, Resp.err 400 "Aucun champ à modifier")) ∧
      (b.presentFields = [] → b.extraKeys ≠ [] →
        patchColis st id b = (st, Resp.err 400 "Aucun champ valide à modifier")) ∧
      (∀ (st2 : Store) (c0 cnew : Colis),
        st.colis.find? (fun c => c.id == id) = some c0 →
        patchColis st id b = (st2, Resp.ok 200 cnew) →
        cnew = applyColisPatch b c0 ∧
        colisPatchRespectsAbsent b c0 cnew ∧
        colisPatchAppliesPresent b cnew ∧
        st2.colis =
          st.colis.map (fun c => if c.id = id then applyColisPatch b c else c) ∧
        st2.reservations = st.reservations ∧ st2.creneaux = st.creneaux)) := by
  constructor
  · intro st id b
    refine ⟨?_, ?_, ?_⟩
    · intro h
      simp only [patchReservation]
      rw [if_pos h]
    · intro h1 h2
      have hel : b.extraKeys.length ≠ 0 := by simpa [List.length_eq_zero] using h2
      simp only [patchReservation]
      rw [if_neg (by simp only [h1, List.length_nil, Nat.zero_add]; exact hel),
          if_pos (by simp [h1])]
    · intro st2 r0 rnew hfind h
      simp only [patchReservation] at h
      split at h
      · simp at h
      · split at h
        · simp at h
        · split at h
          · simp at h
          · split at h
            · simp at h
            · rw [hfind] at h
              simp only [Prod.mk.injEq, Resp.ok.injEq] at h
              obtain ⟨hst2, -, hrnew⟩ := h
              refine ⟨hrnew.symm, ?_, ?_, ?_, ?_, ?_⟩
              · rw [← hrnew]
                exact applyReservationPatch_respects b r0
              · rw [← hrnew]
                exact applyReservationPatch_applies b r0
              · rw [← hst2]
              · rw [← hst2]
              · rw [← hst2]
  · intro st id b
    refine ⟨?_, ?_, ?_⟩
    · intro h
      simp only [patchColis]
      rw [if_pos h]
    · intro h1 h2
      have hel : b.extraKeys.length ≠ 0 := by simpa [List.length_eq_zero] using h2
      simp only [patchColis]
      rw [if_neg (by simp only [h1, List.length_nil, Nat.zero_add]; exact hel),
          if_pos (by simp [h1])]
    · intro st2 c0 cnew hfind h
      simp only [patchColis] at h
      split at h
      · simp at h
      · split at h
        · simp at h
        · split at h
          · simp at h
          · split at h
            · simp at h
            · split at h
              · simp at h
              · split at h
                · simp at h
                · rw [hfind] at h
                  simp only [Prod.mk.injEq, Resp.ok.injEq] at h
                  obtain ⟨hst2, -, hcnew⟩ := h
                  refine ⟨hcnew.symm, ?_, ?_, ?_, ?_, ?_⟩
                  · rw [← hcnew]
                    exact applyColisPatch_respects b c0
                  · rw [← hcnew]
                    exact applyColisPatch_applies b c0
                  · rw [← hst2]
                  · rw [← hst2]
                  · rw [← hst2]

/-- The sample reservation after patching only the name. -/
def exResaTraore : Reservation := { exResa with nom := "Traore" }

/-- The sample store after patching only the name of reservation 1. -/
def exStoreResaPatched : Store := ⟨[exResaTraore], [], []⟩

/-- C6, witness: on the sample store, the empty body and the body with
only an unrecognized key are rejected with the store unchanged, and a
successful patch supplying only the name rewrites exactly it. -/
theorem c6_witness :
    patchReservation exStoreResa 1 ({} : ReservationPayload) =
      (exStoreResa, Resp.err 400 "Aucun champ à modifier") ∧
    patchReservation exStoreResa 1 ({ extraKeys := ["champ_inconnu"] } : ReservationPayload) =
      (exStoreResa, Resp.err 400 "Aucun champ valide à modifier") ∧
    reservationPatchRespectsAbsent ({ nom := some ("Traore") } : ReservationPayload) exResa
      (applyReservationPatch ({ nom := some ("Traore") } : ReservationPayload) exResa) ∧
    reservationPatchAppliesPresent ({ nom := some ("Traore") } : ReservationPayload)
      (applyReservationPatch ({ nom := some ("Traore") } : ReservationPayload) exResa) := by
  have h3 := (c6_patch_field_filtering.1 exStoreResa 1
      ({ nom := some ("Traore") } : ReservationPayload)).2.2
    exStoreResaPatched
    exResa (applyReservationPatch ({ nom := some ("Traore") } : ReservationPayload) exResa)
    (by decide) (by decide)
  refine ⟨?_, ?_, h3.2.1, h3.2.2.1⟩
  · exact (c6_patch_field_filtering.1 exStoreResa 1 ({} : ReservationPayload)).1 (by decide)
  · exact (c6_patch_field_filtering.1 exStoreResa 1
      ({ extraKeys := ["champ_inconnu"] } : ReservationPayload)).2.1 (by decide) (by decide)

/-- C7: for every list request of the reservations and colis routers,
the returned pagination metadata carries the effective page
Math.max(1, page), the effective limit Math.min(100, Math.max(1, limit)),
the total count of matching rows, the ceiling-divided page count, and
the has-next and has-previous flags computed from them. -/
theorem c7_pagination_clamp (st : Store) (page limit : Int) (search statutq : Option String)
    (sortBy order : String) :
    (∀ (data : List Reservation) (pg : Pagination),
      listReservations st page limit search sortBy order = Resp.ok 200 (data, pg) →
      pg = mkPagination page limit (resFiltered st search).length ∧
      pg.page = max 1 page ∧
      pg.limit = min 100 (max 1 limit) ∧
      pg.total = (resFiltered st search).length ∧
      pg.totalPages = ceilPages (resFiltered st search).length (min 100 (max 1 limit)).toNat ∧
      pg.hasNext = decide (pg.page < (pg.totalPages : Int)) ∧
      pg.hasPrev = decide (1 < pg.page)) ∧
    (∀ (data : List ColisView) (pg : Pagination),
      listColis st page limit search statutq sortBy order = Resp.ok 200 (data, pg) →
      pg = mkPagination page limit (colisFiltered st search statutq).length ∧
      pg.page = max 1 page ∧
      pg.limit = min 100 (max 1 limit) ∧
      pg.total = (colisFiltered st search statutq).length ∧
      pg.totalPages =
        ceilPages (colisFiltered st search statutq).length (min 100 (max 1 limit)).toNat ∧
      pg.hasNext = decide (pg.page < (pg.totalPages : Int)) ∧
      pg.hasPrev = decide (1 < pg.page)) := by
  constructor
  · intro data pg h
    simp only [listReservations, Resp.ok.injEq, Prod.mk.injEq] at h
    obtain ⟨-, -, hpg⟩ := h
    rw [← hpg]
    refine ⟨rfl, rfl, rfl, rfl, rfl, ?_, rfl⟩
    simp [mkPagination]
  · intro data pg h
    simp only [listColis, Resp.ok.injEq, Prod.mk.injEq] at h
    obtain ⟨-, -, hpg⟩ := h
    rw [← hpg]
    refine ⟨rfl, rfl, rfl, rfl, rfl, ?_, rfl⟩
    simp [mkPagination]

/-- C7, witness: requesting page 0 and limit 500 on the sample store
yields effective page 1 and effective limit 100 in the metadata. -/
theorem c7_witness :
    listReservations exStoreResa 0 500 none "id" "DESC" =
      Resp.ok 200 ([exResa], mkPagination 0 500 1) ∧
    (mkPagination 0 500 1).page = 1 ∧
    (mkPagination 0 500 1).limit = 100 := by
  have h := (c7_pagination_clamp exStoreResa 0 500 none none "id" "DESC").1 [exResa]
    (mkPagination 0 500 1) (by decide)
  refine ⟨by decide, ?_, ?_⟩
  · rw [h.2.1]
    decide
  · rw [h.2.2.1]
    decide

/-- C8, counterexample: the ids array models [12.5, 1]; 12.5 is not an
integer yet parseInt yields 12, so the isNaN filter keeps it rather
than silently dropping it, and instead of deleting the row matching the
valid identifier 1 with a count-and-rows response, the statement fails
on the integer cast: the response is a 500 error and no row is
deleted. -/
theorem c8_counterexample :
    parseIntJs (IdEntry.nonIntNum 12) = some 12 ∧
    exResa.id = 1 ∧ exResa ∈ exStoreResa.reservations ∧
    deleteManyReservations exStoreResa (some [IdEntry.nonIntNum 12, IdEntry.intVal 1]) =
      (exStoreResa, Resp.err 500 "Erreur interne du serveur") := by
  decide

/-- C8 (amended): the batch reservation delete rejects a missing or
empty id array with a 400 error; entries whose parseInt is NaN are
silently dropped; when no entry survives the filter, the request is
rejected with a 400 error and no row deleted; when every surviving
entry is an exact integer, the rows matching those identifiers are
deleted in a single statement and the response carries their count and
the rows themselves; but a surviving entry that parseInt only partially
parses is bound into the statement, its cast fails, and the request
ends in a 500 error with no row deleted. -/
theorem c8_delete_many_reservations (st : Store) :
    (deleteManyReservations st none = (st, Resp.err 400 "Liste d\x27IDs requise")) ∧
    (deleteManyReservations st (some []) = (st, Resp.err 400 "Liste d\x27IDs requise")) ∧
    (∀ l : List IdEntry, l ≠ [] → l.filter (fun e => (parseIntJs e).isSome) = [] →
      deleteManyReservations st (some l) = (st, Resp.err 400 "Aucun ID valide fourni")) ∧
    (∀ (l kept : List IdEntry),
      l.filter (fun e => (parseIntJs e).isSome) = kept → kept ≠ [] →
      (∀ ids2 : List Int, castEntries kept = some ids2 →
        deleteManyReservations st (some l) =
          ({ st with reservations :=
              st.reservations.filter (fun r => !(ids2.contains (r.id : Int))) },
           Resp.ok 200
             (toString (st.reservations.filter (fun r => ids2.contains (r.id : Int))).length ++
                " réservation(s) supprimée(s)",
              st.reservations.filter (fun r => ids2.contains (r.id : Int))))) ∧
      (castEntries kept = none →
        deleteManyReservations st (some l) =
          (st, Resp.err 500 "Erreur interne du serveur"))) := by
  refine ⟨rfl, rfl, ?_, ?_⟩
  · intro l hne hfm
    have hll : l.length ≠ 0 := by simpa [List.length_eq_zero] using hne
    simp only [deleteManyReservations]
    rw [if_neg hll, if_pos (by simp [hfm])]
  · intro l kept hfm hne
    have hlne : l ≠ [] := by
      intro hl
      rw [hl] at hfm
      simp at hfm
      exact hne hfm
    have hll : l.length ≠ 0 := by simpa [List.length_eq_zero] using hlne
    have hkl : kept.length ≠ 0 := by simpa [List.length_eq_zero] using hne
    constructor
    · intro ids2 hc
      simp only [deleteManyReservations, hfm, hc]
      rw [if_neg hll, if_neg hkl]
    · intro hc
      simp only [deleteManyReservations, hfm, hc]
      rw [if_neg hll, if_neg hkl]

/-- C8, witness: of the entries modelling null and 1, the NaN-parsing
entry is dropped, the integer entry survives and casts, and the
matching reservation is deleted and returned with count 1. -/
theorem c8_witness :
    ([IdEntry.nanVal, IdEntry.intVal 1] : List IdEntry).filter
        (fun e => (parseIntJs e).isSome) = [IdEntry.intVal 1] ∧
    castEntries [IdEntry.intVal 1] = some [1] ∧
    deleteManyReservations exStoreResa (some [IdEntry.nanVal, IdEntry.intVal 1]) =
      ({ exStoreResa with reservations :=
          exStoreResa.reservations.filter (fun r => !(([1] : List Int).contains (r.id : Int))) },
       Resp.ok 200
         (toString
            (exStoreResa.reservations.filter
              (fun r => ([1] : List Int).contains (r.id : Int))).length ++
            " réservation(s) supprimée(s)",
          exStoreResa.reservations.filter (fun r => ([1] : List Int).contains (r.id : Int)))) := by
  refine ⟨by decide, by decide, ?_⟩
  exact ((c8_delete_many_reservations exStoreResa).2.2.2 [IdEntry.nanVal, IdEntry.intVal 1]
    [IdEntry.intVal 1] (by decide) (by decide)).1 [1] (by decide)

/-- C9: supplying exactly 0 for a positivity-constrained field in a
partial update skips the truthiness-guarded validation, the update
succeeds on an existing row, and 0 is written: for the package weight,
the slot maximum capacity, the slot fee per kilogram, the slot maximum
package weight and the reservation passenger count. -/
theorem c9_zero_bypasses_positivity (st : Store) (id : Nat) :
    (∀ c0 : Colis, st.colis.find? (fun c => c.id == id) = some c0 →
      (patchColis st id ({ poids := some 0 } : ColisPayload)).2 =
        Resp.ok 200 (applyColisPatch ({ poids := some 0 } : ColisPayload) c0) ∧
      (applyColisPatch ({ poids := some 0 } : ColisPayload) c0).poids = 0 ∧
      applyColisPatch ({ poids := some 0 } : ColisPayload) c0 ∈
        ((patchColis st id ({ poids := some 0 } : ColisPayload)).1).colis) ∧
    (∀ ce0 : Creneau, st.creneaux.find? (fun x => x.id == id) = some ce0 →
      ((patchCreneau st id ({ capacite_max := some 0 } : CreneauPayload)).2 =
         Resp.ok 200 (applyCreneauPatch ({ capacite_max := some 0 } : CreneauPayload) ce0) ∧
       (applyCreneauPatch ({ capacite_max := some 0 } : CreneauPayload) ce0).capacite_max = 0) ∧
      ((patchCreneau st id ({ frais_par_kg := some 0 } : CreneauPayload)).2 =
         Resp.ok 200 (applyCreneauPatch ({ frais_par_kg := some 0 } : CreneauPayload) ce0) ∧
       (applyCreneauPatch ({ frais_par_kg := some 0 } : CreneauPayload) ce0).frais_par_kg = 0) ∧
      ((patchCreneau st id ({ poids_max_colis := some 0 } : CreneauPayload)).2 =
         Resp.ok 200 (applyCreneauPatch ({ poids_max_colis := some 0 } : CreneauPayload) ce0) ∧
       (applyCreneauPatch ({ poids_max_colis := some 0 } : CreneauPayload) ce0).poids_max_colis
         = 0)) ∧
    (∀ r0 : Reservation, st.reservations.find? (fun r => r.id == id) = some r0 →
      (patchReservation st id ({ nombre_passagers := some 0 } : ReservationPayload)).2 =
        Resp.ok 200
          (applyReservationPatch ({ nombre_passagers := some 0 } : ReservationPayload) r0) ∧
      (applyReservationPatch ({ nombre_passagers := some 0 } : ReservationPayload) r0
        ).nombre_passagers = 0) := by
  refine ⟨?_, ?_, ?_⟩
  · intro c0 hc0
    have hid : c0.id = id := by simpa using List.find?_some hc0
    have hmem : c0 ∈ st.colis := List.mem_of_find?_eq_some hc0
    rw [patchColis_ok st id ({ poids := some 0 } : ColisPayload) c0 (by decide) (by decide)
      (by decide) (by decide) (by decide) (by decide) hc0]
    refine ⟨rfl, by simp [applyColisPatch], ?_⟩
    exact List.mem_map.mpr ⟨c0, hmem, by rw [if_pos hid]⟩
  · intro ce0 hce0
    rw [patchCreneau_ok st id ({ capacite_max := some 0 } : CreneauPayload) ce0 (by decide)
        (by decide) (by decide) (by decide) hce0,
      patchCreneau_ok st id ({ frais_par_kg := some 0 } : CreneauPayload) ce0 (by decide)
        (by decide) (by decide) (by decide) hce0,
      patchCreneau_ok st id ({ poids_max_colis := some 0 } : CreneauPayload) ce0 (by decide)
        (by decide) (by decide) (by decide) hce0]
    exact ⟨⟨rfl, by simp [applyCreneauPatch]⟩, ⟨rfl, by simp [applyCreneauPatch]⟩,
      ⟨rfl, by simp [applyCreneauPatch]⟩⟩
  · intro r0 hr0
    rw [patchReservation_ok st id ({ nombre_passagers := some 0 } : ReservationPayload) r0
      (by decide) (by decide) (by decide) (by decide) hr0]
    exact ⟨rfl, by simp [applyReservationPatch]⟩

/-- C9, witness: patching weight 0 on package 1, capacity 0 on slot 1
and passenger count 0 on reservation 1 all succeed and store 0. -/
theorem c9_witness :
    (patchColis exStoreColisOnly 1 ({ poids := some 0 } : ColisPayload)).2 =
      Resp.ok 200 (applyColisPatch ({ poids := some 0 } : ColisPayload) exColisFree) ∧
    (applyColisPatch ({ poids := some 0 } : ColisPayload) exColisFree).poids = 0 ∧
    (patchCreneau exStoreSlot1Empty 1 ({ capacite_max := some 0 } : CreneauPayload)).2 =
      Resp.ok 200 (applyCreneauPatch ({ capacite_max := some 0 } : CreneauPayload) exCreneau1) ∧
    (applyCreneauPatch ({ capacite_max := some 0 } : CreneauPayload) exCreneau1).capacite_max
      = 0 ∧
    (patchReservation exStoreResa 1 ({ nombre_passagers := some 0 } : ReservationPayload)).2 =
      Resp.ok 200
        (applyReservationPatch ({ nombre_passagers := some 0 } : ReservationPayload) exResa) ∧
    (applyReservationPatch ({ nombre_passagers := some 0 } : ReservationPayload) exResa
      ).nombre_passagers = 0 := by
  have h1 := (c9_zero_bypasses_positivity exStoreColisOnly 1).1 exColisFree (by decide)
  have h2 := (c9_zero_bypasses_positivity exStoreSlot1Empty 1).2.1 exCreneau1 (by decide)
  have h3 := (c9_zero_bypasses_positivity exStoreResa 1).2.2 exResa (by decide)
  exact ⟨h1.1, h1.2.1, h2.1.1, h2.1.2, h3.1, h3.2⟩

/-- C10: a full package update whose body omits the status field (and
passes the field validations) succeeds on an existing id and overwrites
the stored status with the default pending value, whatever it was. -/
theorem c10_put_resets_statut (st : Store) (id : Nat) (b : ColisPayload) (c0 : Colis)
    (hstat : b.statut = none)
    (hreq : colisRequiredMissing b = none)
    (htype : typeColisInvalid b = false)
    (hpay : methodePaiementInvalid b = false)
    (hpoids : jsLeZero b.poids = false)
    (hc0 : st.colis.find? (fun c => c.id == id) = some c0) :
    (putColis st id b).2 = Resp.ok 200 (applyColisPut b c0) ∧
    (applyColisPut b c0).statut = "en_attente" := by
  have hsi : statutInvalid b = false := by simp [statutInvalid, hstat, truthyS]
  rw [putColis_ok st id b c0 hreq htype hpay hpoids hsi hc0]
  exact ⟨rfl, by simp [applyColisPut, hstat, jsOrS]⟩

/-- C10, witness: the stored package has status livre; the full update
with no status field succeeds and resets the status to en_attente. -/
theorem c10_witness :
    exColisFree.statut = "livre" ∧
    exBodyPlain.statut = none ∧
    (putColis exStoreColisOnly 1 exBodyPlain).2 =
      Resp.ok 200 (applyColisPut exBodyPlain exColisFree) ∧
    (applyColisPut exBodyPlain exColisFree).statut = "en_attente" := by
  have h := c10_put_resets_statut exStoreColisOnly 1 exBodyPlain exColisFree
    (by decide) (by decide) (by decide) (by decide) (by decide) (by decide)
  exact ⟨by decide, by decide, h.1, h.2⟩

end Jessback
